import Mathlib

/-!
Shallow embedding of the construction-notice microservice
(`backend/app/services/notice_contruction.py` and
`backend/app/routers/websocket.py`) together with proofs about its
date normalizer, notice store, proximity matcher, connection registry
and periodic scan.

Python strings are modelled as `List Char`; the string helpers below
model the ASCII fragment of Python's `str.strip`, `str.split` and
`int()` (unicode whitespace and non-ASCII digits are out of scope —
no input considered here uses them).
-/

deriving instance DecidableEq for Except

/-- Python strings, modelled as lists of characters. -/
abbrev PyStr := List Char

/-- The exceptions the embedded code can raise. -/
inductive PyExc where
  | valueError
  | keyError
  | overflowError
deriving DecidableEq

/-- ASCII whitespace, as recognized by `str.strip()` and `int()`. -/
def pyIsSpace (c : Char) : Bool :=
  c == ' ' || c == '\t' || c == '\n' || c == '\r' || c == '\x0b' || c == '\x0c'

/-- Python `s.strip()`: drop whitespace from both ends. -/
def pyStrip (s : PyStr) : PyStr :=
  ((s.dropWhile pyIsSpace).reverse.dropWhile pyIsSpace).reverse

/-- Python `c in s` for a single character. -/
def pyContains (s : PyStr) (c : Char) : Bool :=
  s.any (· == c)

/-- Python `s.split(sep)` (split at every occurrence; `"".split(sep) = [""]`). -/
def pySplitAll (sep : Char) : PyStr → List PyStr
  | [] => [[]]
  | c :: rest =>
    if c = sep then [] :: pySplitAll sep rest
    else
      match pySplitAll sep rest with
      | r :: rs => (c :: r) :: rs
      | [] => [[c]]

/-- Python `s.split(sep, 1)` restricted to the case `sep in s`:
the text before the first `sep` and the text after it. -/
def pySplitFirst (sep : Char) : PyStr → PyStr × PyStr
  | [] => ([], [])
  | c :: rest =>
    if c = sep then ([], rest)
    else
      let p := pySplitFirst sep rest
      (c :: p.1, p.2)

/-- Decimal digit value of a character, if it is `'0'..'9'`. -/
def digitVal (c : Char) : Option Nat :=
  if '0' ≤ c ∧ c ≤ '9' then some (c.toNat - '0'.toNat) else none

/-- Digits of a Python int literal after the first digit: decimal digits
with single underscores allowed between digits (no trailing underscore). -/
def pyIntCore (acc : Nat) : PyStr → Option Nat
  | [] => some acc
  | '_' :: c :: rest =>
    match digitVal c with
    | some d => pyIntCore (acc * 10 + d) rest
    | none => none
  | ['_'] => none
  | c :: rest =>
    match digitVal c with
    | some d => pyIntCore (acc * 10 + d) rest
    | none => none

/-- The digit part of a Python int literal: nonempty, starts with a digit. -/
def pyIntStart : PyStr → Option Nat
  | [] => none
  | c :: rest =>
    match digitVal c with
    | some d => pyIntCore d rest
    | none => none

/-- Python `int(s)` (base 10): strip whitespace, optional sign, digits with
optional single underscores between digits; `none` models `ValueError`. -/
def pyInt (s : PyStr) : Option Int :=
  match pyStrip s with
  | '+' :: rest => (pyIntStart rest).map Int.ofNat
  | '-' :: rest => (pyIntStart rest).map (fun n => -(n : Int))
  | rest => (pyIntStart rest).map Int.ofNat

/-- A `datetime.date` value: a validated (year, month, day) triple. -/
structure PyDate where
  year : Int
  month : Int
  day : Int
deriving DecidableEq

/-- Gregorian leap-year rule, as used by `datetime.date`. -/
def isLeap (y : Int) : Bool :=
  (y % 4 == 0 && y % 100 != 0) || (y % 400 == 0)

/-- Number of days in a month of a given year. -/
def daysInMonth (y m : Int) : Int :=
  if m = 2 then (if isLeap y then 29 else 28)
  else if m = 4 ∨ m = 6 ∨ m = 9 ∨ m = 11 then 30
  else 31

/-- The validation performed by the `date(y, m, d)` constructor
(`MINYEAR = 1`, `MAXYEAR = 9999`). -/
def isValidDate (y m d : Int) : Bool :=
  1 ≤ y && y ≤ 9999 && 1 ≤ m && m ≤ 12 && 1 ≤ d && d ≤ daysInMonth y m

/-- `date(y, m, d)` when its arguments fit in a C int: `some` date or
`none` for the `ValueError` the caller catches. -/
def mkValidDate (y m d : Int) : Option PyDate :=
  if isValidDate y m d then some ⟨y, m, d⟩ else none

/-- Arguments of `date(...)` outside the C-int range raise `OverflowError`
(not `ValueError`), which the inner handler does not catch. -/
def overflowsCInt (n : Int) : Bool :=
  n < -(2 ^ 31) || 2 ^ 31 - 1 < n

/-- `date` comparison: lexicographic on (year, month, day). -/
def dateLe (a b : PyDate) : Bool :=
  a.year < b.year ||
    (a.year == b.year &&
      (a.month < b.month || (a.month == b.month && a.day ≤ b.day)))

/-- The inner helper `roc_to_gregorian` of `parse_roc_date_range`
(notice_contruction.py lines 39–56): split on `'/'`, require exactly
three fields, parse each with `int()`, convert the year by `+ 1911` and
build a `date`.  `int()` failures and invalid calendar dates are caught
by its own `except (ValueError, IndexError)` and yield `none`; a
`date(...)` argument outside C-int range raises `OverflowError`, which
escapes this helper. -/
def roc_to_gregorian (s : PyStr) : Except PyExc (Option PyDate) :=
  match pySplitAll '/' s with
  | [p1, p2, p3] =>
    match pyInt p1, pyInt p2, pyInt p3 with
    | some y, some m, some d =>
      let gy := y + 1911
      if overflowsCInt gy || overflowsCInt m || overflowsCInt d then
        .error .overflowError
      else
        .ok (mkValidDate gy m d)
    | _, _, _ => .ok none
  | _ => .ok none

/-- The body of the `try` block of `parse_roc_date_range`
(notice_contruction.py lines 28–61): split at the first `'-'` when one
is present, otherwise use the whole string for both sides; strip each
side and convert it. An escaping exception is an `.error`. -/
def parse_body (s : PyStr) : Except PyExc (Option PyDate × Option PyDate) :=
  let pr :=
    if pyContains s '-' then
      (pyStrip (pySplitFirst '-' s).1, pyStrip (pySplitFirst '-' s).2)
    else (pyStrip s, pyStrip s)
  match roc_to_gregorian pr.1 with
  | .error e => .error e
  | .ok sd =>
    match roc_to_gregorian pr.2 with
    | .error e => .error e
    | .ok ed => .ok (sd, ed)

/-- `parse_roc_date_range` (notice_contruction.py lines 15–65): blank
input short-circuits to `(None, None)`; the body runs under a catch-all
`except Exception` that logs and returns `(None, None)`, so the function
itself never raises — its result is always `.ok`. -/
def parse_roc_date_range (s : PyStr) :
    Except PyExc (Option PyDate × Option PyDate) :=
  if pyStrip s = [] then .ok (none, none)
  else
    match parse_body s with
    | .ok r => .ok r
    | .error _ => .ok (none, none)

/-- Modelled from the spec: the `Favorite` record of §3 (the SQLAlchemy
class is not under `src/`; the fields are the ones `websocket.py`
reads). `route_start_coords`/`route_end_coords` model the JSON dicts:
`none` is an absent or empty (falsy) dict, and each component is
present in the dict iff it is `some`. Coordinates are rationals (the
float values' arithmetic does not enter the claims proved here). -/
structure Favorite where
  id : Int
  user_id : Int
  name : String
  type : String
  lat : Option ℚ
  lon : Option ℚ
  route_start_coords : Option (Option ℚ × Option ℚ)
  route_end_coords : Option (Option ℚ × Option ℚ)
  distance_threshold : Option ℚ
  notification_enabled : Bool
deriving DecidableEq

/-- Modelled from the spec: the `ConstructionNotice` record of §3/§6
(the SQLAlchemy class is not under `src/`). `geometry` models the
GeoJSON dict as its `type` tag and `coordinates` list; `none` is an
absent or falsy geometry. -/
structure ConstructionNotice where
  id : Int
  name : String
  road : Option String
  type : Option String
  unit : Option String
  start_date : Option PyDate
  end_date : Option PyDate
  url : Option String
  geometry : Option (String × List ℚ)
deriving DecidableEq

/-- An alert dict as built by `check_construction_near_favorites`
(websocket.py lines 121–133). `start_date`/`end_date` keep the date
values (the source serializes them with `isoformat()`). -/
structure Alert where
  favorite_id : Int
  favorite_name : String
  favorite_type : String
  construction_id : Int
  construction_name : String
  construction_road : Option String
  construction_type : Option String
  distance_meters : Int
  start_date : Option PyDate
  end_date : Option PyDate
  url : Option String
deriving DecidableEq

/-- Python `round()` on a rational: round half to even. Computed on the
numerator and denominator (`f` is the floor, and the fractional part
`r = (num - f*den)/den` is compared with `1/2` by cross-multiplying). -/
def pyRound (q : ℚ) : Int :=
  let n := q.num
  let d := (q.den : Int)
  let f := Int.fdiv n d
  let t := 2 * (n - f * d)
  if t < d then f
  else if d < t then f + 1
  else if f % 2 = 0 then f else f + 1

/-- `get_favorite_coordinates` (websocket.py lines 35–61): place and
road favorites contribute their own point when both `lat` and `lon`
are set; route favorites contribute the start then the end coordinate
dict, each only when it is truthy and carries both keys. -/
def get_favorite_coordinates (favorite : Favorite) : List (ℚ × ℚ) :=
  if favorite.type = "place" then
    match favorite.lat, favorite.lon with
    | some la, some lo => [(la, lo)]
    | _, _ => []
  else if favorite.type = "road" then
    match favorite.lat, favorite.lon with
    | some la, some lo => [(la, lo)]
    | _, _ => []
  else if favorite.type = "route" then
    (match favorite.route_start_coords with
     | some (some la, some lo) => [(la, lo)]
     | _ => []) ++
    (match favorite.route_end_coords with
     | some (some la, some lo) => [(la, lo)]
     | _ => [])
  else []

/-- `favorite.distance_threshold or 100.0` (websocket.py line 98):
an unset or zero (falsy) threshold defaults to 100. -/
def pyThreshold : Option ℚ → ℚ
  | none => 100
  | some x => if x = 0 then 100 else x

/-- The SQLAlchemy filter of websocket.py lines 81–88 under SQL
three-valued logic: a `NULL` `start_date` or `end_date` makes the
comparison non-true, so the row is not selected. -/
def activeNotices (today : PyDate) (notices : List ConstructionNotice) :
    List ConstructionNotice :=
  notices.filter (fun n =>
    match n.start_date, n.end_date with
    | some s, some e => dateLe s today && dateLe today e
    | _, _ => false)

/-- The dedup key of an alert: `(favorite_id, construction_id)`. -/
def alertKey (a : Alert) : Int × Int :=
  (a.favorite_id, a.construction_id)

/-- The alert dict appended at websocket.py lines 121–133. -/
def mkAlert (f : Favorite) (c : ConstructionNotice) (d : ℚ) : Alert :=
  ⟨f.id, f.name, f.type, c.id, c.name, c.road, c.type, pyRound d,
    c.start_date, c.end_date, c.url⟩

/-- The innermost loop of websocket.py lines 113–116: the first
favorite point within the threshold of the notice point (the `break`
at line 134 stops after the first match). `dist` abstracts
`haversine_distance_meters`, whose float value does not enter the
properties proved here. -/
def pointsLoop (dist : ℚ → ℚ → ℚ → ℚ → ℚ) (thr conLat conLon : ℚ) :
    List (ℚ × ℚ) → Option ℚ
  | [] => none
  | (la, lo) :: rest =>
    let d := dist la lo conLat conLon
    if d ≤ thr then some d else pointsLoop dist thr conLat conLon rest

/-- One iteration of the notice loop of websocket.py lines 100–134,
threading the `(notified_combinations, alerts)` accumulator: skip
falsy or non-Point geometry, find the first in-range favorite point,
and emit an alert only when the `(favorite_id, construction_id)` key
is not yet in the set. -/
def noticeStep (dist : ℚ → ℚ → ℚ → ℚ → ℚ) (f : Favorite)
    (coords : List (ℚ × ℚ)) (thr : ℚ)
    (acc : List (Int × Int) × List Alert) (c : ConstructionNotice) :
    List (Int × Int) × List Alert :=
  match c.geometry with
  | none => acc
  | some (gt, gcoords) =>
    if gt = "Point" then
      match gcoords with
      | conLon :: conLat :: _ =>
        match pointsLoop dist thr conLat conLon coords with
        | some d =>
          if (f.id, c.id) ∈ acc.1 then acc
          else ((f.id, c.id) :: acc.1, acc.2 ++ [mkAlert f c d])
        | none => acc
      | _ => acc
    else acc

/-- One iteration of the favorite loop of websocket.py lines 93–134:
skip favorites with no extracted coordinates, otherwise run the notice
loop with this favorite's threshold. -/
def favStep (dist : ℚ → ℚ → ℚ → ℚ → ℚ) (cns : List ConstructionNotice)
    (acc : List (Int × Int) × List Alert) (f : Favorite) :
    List (Int × Int) × List Alert :=
  let coords := get_favorite_coordinates f
  if coords.isEmpty then acc
  else cns.foldl (noticeStep dist f coords (pyThreshold f.distance_threshold)) acc

/-- `check_construction_near_favorites` (websocket.py lines 64–136):
filter the user's notification-enabled favorites, select the currently
active notices, and run the nested matching loops. The favorite and
notice tables are passed in place of the database queries; `dist`
abstracts `haversine_distance_meters`. -/
def check_construction_near_favorites (user_id : Int)
    (allFavorites : List Favorite) (allNotices : List ConstructionNotice)
    (today : PyDate) (dist : ℚ → ℚ → ℚ → ℚ → ℚ) : List Alert :=
  let favorites := allFavorites.filter
    (fun f => f.user_id == user_id && f.notification_enabled)
  if favorites.isEmpty then []
  else (favorites.foldl (favStep dist (activeNotices today allNotices)) ([], [])).2

/-- The `active_connections` dict (websocket.py line 17): external id
to live connection handle. Connection handles are abstracted as `Nat`;
keys are unique as in a Python dict. -/
abbrev Registry := List (String × Nat)

/-- Python `d[k]` / `k in d`: look up the entry for a key. -/
def regLookup (eid : String) : Registry → Option Nat
  | [] => none
  | (k, v) :: rest => if k = eid then some v else regLookup eid rest

/-- Python `del d[k]`: remove the entry for a key. -/
def regRemove (eid : String) (reg : Registry) : Registry :=
  reg.filter (fun p => !(p.1 == eid))

/-- The observable outcome of one `send_construction_alert` call: the
registry afterwards, the returned boolean, and the delivery attempts
made (target handle with the alert payload). -/
structure SendResult where
  registry : Registry
  returned : Bool
  sends : List (Nat × List Alert)
deriving DecidableEq

/-- `send_construction_alert` (websocket.py lines 199–217): return
`False` with no send when the identifier has no entry; otherwise
attempt exactly one `send_json` — `True` on success, and on failure
delete the entry and return `False`.  `sendOk` abstracts whether
`send_json` on a given handle succeeds. -/
def send_construction_alert (reg : Registry) (sendOk : Nat → Bool)
    (eid : String) (alerts : List Alert) : SendResult :=
  match regLookup eid reg with
  | none => ⟨reg, false, []⟩
  | some ws =>
    if sendOk ws then ⟨reg, true, [(ws, alerts)]⟩
    else ⟨regRemove eid reg, false, [(ws, alerts)]⟩

/-- The `finally` block of `websocket_endpoint` (websocket.py lines
185–189): delete this identifier's entry only when it is present and
still maps to this very connection handle. -/
def websocket_cleanup (reg : Registry) (eid : String) (ws : Nat) : Registry :=
  match regLookup eid reg with
  | some w => if w = ws then regRemove eid reg else reg
  | none => reg

/-- The `online_users` list built at websocket.py lines 228–232: the
connected identifiers whose user record resolves. -/
def onlineUsers (conns : Registry) (resolveUser : String → Option Int) :
    List (String × Int) :=
  conns.filterMap (fun p => (resolveUser p.1).map (fun uid => (p.1, uid)))

/-- The per-user loop of websocket.py lines 234–238 under the single
`try/except` wrapping the whole scan (lines 226–240): users are
processed in order until the first one whose processing raises; that
exception is caught at the scan level, so the remaining users are not
processed. Returns the users that were fully processed. `runCheck`
abstracts the fallible per-user work (`check_construction_near_favorites`
on the shared session); `send_construction_alert` itself never raises. -/
def processOnlineUsers (runCheck : Int → Except PyExc (List Alert)) :
    List (String × Int) → List (String × Int)
  | [] => []
  | u :: rest =>
    match runCheck u.2 with
    | .ok _ => u :: processOnlineUsers runCheck rest
    | .error _ => []

/-- `check_and_notify_all_users` (websocket.py lines 220–242), viewed
through the users it fully processes: empty registry short-circuits;
otherwise resolve the online users and run the guarded per-user loop. -/
def check_and_notify_all_users (conns : Registry)
    (resolveUser : String → Option Int)
    (runCheck : Int → Except PyExc (List Alert)) : List (String × Int) :=
  if conns.isEmpty then []
  else processOnlineUsers runCheck (onlineUsers conns resolveUser)

/-- Modelled from the spec: the persisted columns of a
`construction_notices` row (§6; the SQLAlchemy class is not under
`src/`). The database-assigned `id` and the `geometry` column are not
touched by `save_construction_notices` and are omitted here. -/
structure NoticeRow where
  start_date : Option PyDate
  end_date : Option PyDate
  name : String
  type : Option String
  unit : Option String
  road : Option String
  url : Option String
deriving DecidableEq

/-- An element of the `notices` list passed to
`save_construction_notices`: a dict whose values `.get(...)` returns
(`none` models an absent key, so `notice_data['name']` raises
`KeyError` when `name` is `none`). -/
structure RawNotice where
  start_date : Option PyDate
  end_date : Option PyDate
  name : Option String
  type : Option String
  unit : Option String
  road : Option String
  url : Option String
deriving DecidableEq

/-- A database session over the notice table: the last committed table
and the session's current view (committed rows plus pending,
auto-flushed changes). `commit` copies current into committed;
`rollback` restores current from committed. -/
structure DBState where
  committed : List NoticeRow
  current : List NoticeRow
deriving DecidableEq

/-- Python truthiness of an optional string: present and non-empty. -/
def pyTruthyStr : Option String → Bool
  | none => false
  | some s => !(s == "")

/-- The existence check of `save_construction_notices`
(notice_contruction.py lines 195–204): match by `url` when the incoming
dict carries a truthy `url`, else by `name` when it carries a truthy
`name`; SQL equality against a non-null value never matches a `NULL`
column. -/
def matchesExisting (view : List NoticeRow) (raw : RawNotice) : Bool :=
  if pyTruthyStr raw.url then view.any (fun n => n.url == raw.url)
  else if pyTruthyStr raw.name then view.any (fun n => some n.name == raw.name)
  else false

/-- The `ConstructionNotice(...)` constructed at notice_contruction.py
lines 207–215, given the (present) `name` value. -/
def mkNoticeRow (raw : RawNotice) (nm : String) : NoticeRow :=
  ⟨raw.start_date, raw.end_date, nm, raw.type, raw.unit, raw.road, raw.url⟩

/-- The insert loop of notice_contruction.py lines 193–217 over the
session view: skip a notice matching an existing row, otherwise read
`notice_data['name']` (raising `KeyError` when the key is absent) and
add the new row, counting it. -/
def saveLoop (view : List NoticeRow) (cnt : Nat) :
    List RawNotice → Except PyExc (List NoticeRow × Nat)
  | [] => .ok (view, cnt)
  | raw :: rest =>
    if matchesExisting view raw then saveLoop view cnt rest
    else
      match raw.name with
      | none => .error .keyError
      | some nm => saveLoop (view ++ [mkNoticeRow raw nm]) (cnt + 1) rest

/-- `save_construction_notices` (notice_contruction.py lines 175–226):
when `clear_existing` it deletes every row and immediately `commit`s
(line 190) before any insert; then runs the insert loop and `commit`s,
returning the inserted count; on an exception it `rollback`s to the
last committed table and re-raises. -/
def save_construction_notices (st : DBState) (notices : List RawNotice)
    (clear_existing : Bool) : DBState × Except PyExc Nat :=
  let st1 := if clear_existing then ({ committed := [], current := [] } : DBState) else st
  match saveLoop st1.current 0 notices with
  | .ok (view, cnt) => (⟨view, view⟩, .ok cnt)
  | .error e => (⟨st1.committed, st1.committed⟩, .error e)

/-- Concrete registry used to exercise the periodic-scan embedding. -/
def c2Conns : Registry := [("a", 1), ("b", 2)]

/-- Concrete user resolution for the scan scenarios. -/
def c2Resolve : String → Option Int :=
  fun s => if s = "a" then some 1 else if s = "b" then some 2 else none

/-- Concrete per-user work that fails for user 1 and succeeds for user 2. -/
def c2Check : Int → Except PyExc (List Alert) :=
  fun uid => if uid = 1 then .error .valueError else .ok []

/-- The committed notice table before the C1 failing run. -/
def c1Row : NoticeRow := ⟨none, none, "old", none, none, none, none⟩

/-- The C1 failing input: an incoming notice dict that carries a truthy
`url` but no `name` key, so `notice_data['name']` raises `KeyError`
after the clear was already committed. -/
def c1Bad : RawNotice := ⟨none, none, none, none, none, none, some "http"⟩

/-- Loop invariant of the matcher: the emitted alerts carry pairwise
distinct dedup keys, and every emitted key is recorded in the
`notified_combinations` set. -/
def alertsKeyInv (acc : List (Int × Int) × List Alert) : Prop :=
  (acc.2.map alertKey).Nodup ∧ ∀ k ∈ acc.2.map alertKey, k ∈ acc.1

/-- Provenance invariant of the matcher: every emitted alert's
`construction_id` comes from a notice of the active list `A`. -/
def alertsFromList (A : List ConstructionNotice) (al : List Alert) : Prop :=
  ∀ a ∈ al, ∃ n, n ∈ A ∧ a.construction_id = n.id

/-- A concrete place favorite used to exercise the matcher. -/
def c9Fav : Favorite := ⟨1, 7, "home", "place", some 0, some 0, none, none, none, true⟩

/-- A concrete active notice with Point geometry at the same spot. -/
def c9CN : ConstructionNotice :=
  ⟨5, "dig", some "rd", some "t", some "u", some ⟨2025, 1, 1⟩,
    some ⟨2025, 12, 31⟩, some "url", some ("Point", [0, 0])⟩

/-- The scan date for the matcher scenario. -/
def c9Today : PyDate := ⟨2025, 6, 1⟩

/-- A concrete distance function (always zero) for the scenario. -/
def c9Dist : ℚ → ℚ → ℚ → ℚ → ℚ := fun _ _ _ _ => 0

/-- The claim's notion of a malformed side, following the spec's words:
wrong field count, a non-numeric field, or numeric fields (within the
C-int range) that do not form a valid calendar date after the +1911
year shift. -/
def sideMalformed (s : PyStr) : Prop :=
  match pySplitAll '/' s with
  | [p1, p2, p3] =>
    pyInt p1 = none ∨ pyInt p2 = none ∨ pyInt p3 = none ∨
      (∃ y m d, pyInt p1 = some y ∧ pyInt p2 = some m ∧ pyInt p3 = some d ∧
        overflowsCInt (y + 1911) = false ∧ overflowsCInt m = false ∧
        overflowsCInt d = false ∧ isValidDate (y + 1911) m d = false)
  | _ => True

theorem listFoldlInv {α β : Type _} (g : β → α → β) (P : β → Prop) :
    ∀ (l : List α), (∀ a ∈ l, ∀ acc, P acc → P (g acc a)) →
      ∀ b, P b → P (l.foldl g b) := by
  intro l
  induction l with
  | nil => intro _ b hb; simpa using hb
  | cons x xs ih =>
    intro h b hb
    simp only [List.foldl_cons]
    exact ih (fun a ha acc hacc => h a (List.mem_cons_of_mem _ ha) acc hacc) _
      (h x (List.mem_cons_self _ _) b hb)

theorem regLookup_regRemove_self (eid : String) :
    ∀ reg : Registry, regLookup eid (regRemove eid reg) = none := by
  intro reg
  induction reg with
  | nil => rfl
  | cons p rest ih =>
    by_cases h : p.1 = eid
    · simpa [regRemove, List.filter_cons, h] using ih
    · simpa [regRemove, List.filter_cons, h, regLookup] using ih

theorem processOnlineUsers_all_ok (runCheck : Int → Except PyExc (List Alert)) :
    ∀ l : List (String × Int), (∀ u ∈ l, ∃ al, runCheck u.2 = .ok al) →
      processOnlineUsers runCheck l = l := by
  intro l
  induction l with
  | nil => intro _; rfl
  | cons u rest ih =>
    intro h
    obtain ⟨al, hal⟩ := h u (List.mem_cons_self _ _)
    simp only [processOnlineUsers, hal]
    rw [ih (fun v hv => h v (List.mem_cons_of_mem _ hv))]

theorem processOnlineUsers_stops (runCheck : Int → Except PyExc (List Alert)) :
    ∀ (pre : List (String × Int)) (u : String × Int) (post : List (String × Int)),
      (∀ v ∈ pre, ∃ al, runCheck v.2 = .ok al) →
      (∃ e, runCheck u.2 = .error e) →
      processOnlineUsers runCheck (pre ++ u :: post) = pre := by
  intro pre
  induction pre with
  | nil =>
    intro u post _ he
    obtain ⟨e, he⟩ := he
    simp [processOnlineUsers, he]
  | cons v rest ih =>
    intro u post h he
    obtain ⟨al, hal⟩ := h v (List.mem_cons_self _ _)
    simp only [List.cons_append, processOnlineUsers, hal]
    exact congrArg (List.cons v) (ih u post (fun w hw => h w (List.mem_cons_of_mem _ hw)) he)

theorem onlineUsers_nil (resolveUser : String → Option Int) :
    onlineUsers [] resolveUser = [] := rfl

/-- C5: `send_construction_alert` returns `False` and performs no
delivery I/O when the identifier has no registry entry; when an entry
exists it makes exactly one send attempt (no retry), returns `True`
exactly when the send succeeds, and on a send failure it evicts the
entry and returns `False`. -/
theorem C5_push_semantics :
    ∀ (reg : Registry) (sendOk : Nat → Bool) (eid : String) (alerts : List Alert),
      (regLookup eid reg = none →
        send_construction_alert reg sendOk eid alerts = ⟨reg, false, []⟩) ∧
      (∀ ws, regLookup eid reg = some ws →
        (send_construction_alert reg sendOk eid alerts).sends = [(ws, alerts)] ∧
        ((send_construction_alert reg sendOk eid alerts).returned = true ↔ sendOk ws = true) ∧
        (sendOk ws = true →
          send_construction_alert reg sendOk eid alerts = ⟨reg, true, [(ws, alerts)]⟩) ∧
        (sendOk ws = false →
          (send_construction_alert reg sendOk eid alerts).returned = false ∧
          (send_construction_alert reg sendOk eid alerts).registry = regRemove eid reg ∧
          regLookup eid (send_construction_alert reg sendOk eid alerts).registry = none)) := by
  intro reg sendOk eid alerts
  constructor
  · intro h
    simp [send_construction_alert, h]
  · intro ws h
    cases hs : sendOk ws <;>
      simp [send_construction_alert, h, hs, regLookup_regRemove_self]

theorem C5_push_semantics_witness :
    (regLookup "c" ([("a", 1), ("b", 2)] : Registry) = none ∧
      send_construction_alert [("a", 1), ("b", 2)] (fun w => w == 1) "c" []
        = ⟨[("a", 1), ("b", 2)], false, []⟩) ∧
    (regLookup "b" ([("a", 1), ("b", 2)] : Registry) = some 2 ∧
      (send_construction_alert [("a", 1), ("b", 2)] (fun w => w == 1) "b" []).returned = false ∧
      regLookup "b"
        (send_construction_alert [("a", 1), ("b", 2)] (fun w => w == 1) "b" []).registry
        = none) :=
  ⟨⟨by decide,
    (C5_push_semantics [("a", 1), ("b", 2)] (fun w => w == 1) "c" []).1 (by decide)⟩,
   ⟨by decide,
    (((C5_push_semantics [("a", 1), ("b", 2)] (fun w => w == 1) "b" []).2 2
        (by decide)).2.2.2 (by decide)).1,
    (((C5_push_semantics [("a", 1), ("b", 2)] (fun w => w == 1) "b" []).2 2
        (by decide)).2.2.2 (by decide)).2.2⟩⟩

/-- C10: the connection-teardown cleanup removes the registry entry for
its identifier only when the entry still maps to this very connection
handle; a stale handle (already replaced by a reconnect) leaves the
registry — and in particular the replacement's entry — untouched. -/
theorem C10_cleanup_only_own_handle :
    ∀ (reg : Registry) (eid : String) (ws : Nat),
      (∀ w, regLookup eid reg = some w → w ≠ ws → websocket_cleanup reg eid ws = reg) ∧
      (regLookup eid reg = some ws →
        regLookup eid (websocket_cleanup reg eid ws) = none) ∧
      (regLookup eid reg = none → websocket_cleanup reg eid ws = reg) := by
  intro reg eid ws
  refine ⟨?_, ?_, ?_⟩
  · intro w h hne
    simp [websocket_cleanup, h, hne]
  · intro h
    simp [websocket_cleanup, h, regLookup_regRemove_self]
  · intro h
    simp [websocket_cleanup, h]

theorem C10_cleanup_only_own_handle_witness :
    (regLookup "a" ([("a", 9)] : Registry) = some 9 ∧
      websocket_cleanup [("a", 9)] "a" 2 = [("a", 9)]) ∧
    regLookup "a" (websocket_cleanup [("a", 9)] "a" 9) = none :=
  ⟨⟨by decide,
    (C10_cleanup_only_own_handle [("a", 9)] "a" 2).1 9 (by decide) (by decide)⟩,
   (C10_cleanup_only_own_handle [("a", 9)] "a" 9).2.1 (by decide)⟩

/-- C2 is false on the code: the `try/except` of
`check_and_notify_all_users` wraps the whole loop, so a failure for
the first user aborts the scan — user `"b"` is online with succeeding
per-user work, yet no user at all is processed in that cycle. -/
theorem C2_counterexample_scan_aborts :
    ("b", 2) ∈ onlineUsers c2Conns c2Resolve ∧
    c2Check 2 = .ok [] ∧
    check_and_notify_all_users c2Conns c2Resolve c2Check = [] := by decide

/-- C2 (amended): a failure while processing one user is caught at the
scan level, but the scan stops there — the users before the failing one
are processed, the users after it are skipped for that cycle; when
every online user's processing succeeds, all of them are processed. -/
theorem C2_scan_prefix_until_failure :
    ∀ (conns : Registry) (resolveUser : String → Option Int)
      (runCheck : Int → Except PyExc (List Alert)),
      ((∀ u ∈ onlineUsers conns resolveUser, ∃ al, runCheck u.2 = .ok al) →
        check_and_notify_all_users conns resolveUser runCheck
          = onlineUsers conns resolveUser) ∧
      (∀ (pre : List (String × Int)) (u : String × Int) (post : List (String × Int)),
        onlineUsers conns resolveUser = pre ++ u :: post →
        (∀ v ∈ pre, ∃ al, runCheck v.2 = .ok al) →
        (∃ e, runCheck u.2 = .error e) →
        check_and_notify_all_users conns resolveUser runCheck = pre) := by
  intro conns resolveUser runCheck
  constructor
  · intro h
    cases hc : conns.isEmpty
    · simp only [check_and_notify_all_users, hc, Bool.false_eq_true, if_false]
      exact processOnlineUsers_all_ok runCheck _ h
    · rw [List.isEmpty_iff] at hc
      subst hc
      simp [check_and_notify_all_users, onlineUsers]
  · intro pre u post heq hok herr
    cases hc : conns.isEmpty
    · simp only [check_and_notify_all_users, hc, Bool.false_eq_true, if_false]
      rw [heq]
      exact processOnlineUsers_stops runCheck pre u post hok herr
    · rw [List.isEmpty_iff] at hc
      subst hc
      simp [onlineUsers] at heq

theorem C2_scan_prefix_until_failure_witness :
    onlineUsers c2Conns c2Resolve = [] ++ ("a", 1) :: [("b", 2)] ∧
    check_and_notify_all_users c2Conns c2Resolve c2Check = [] :=
  ⟨by decide,
   (C2_scan_prefix_until_failure c2Conns c2Resolve c2Check).2 [] ("a", 1) [("b", 2)]
     (by decide) (by simp) ⟨.valueError, by decide⟩⟩

theorem saveLoop_ok_structure :
    ∀ (raws : List RawNotice) (view : List NoticeRow) (cnt : Nat)
      (view' : List NoticeRow) (cnt' : Nat),
      saveLoop view cnt raws = .ok (view', cnt') →
      ∃ newRows, view' = view ++ newRows ∧ cnt' = cnt + newRows.length := by
  intro raws
  induction raws with
  | nil =>
    intro view cnt view' cnt' h
    simp only [saveLoop, Except.ok.injEq, Prod.mk.injEq] at h
    exact ⟨[], by simp [h.1.symm], by simp [h.2.symm]⟩
  | cons raw rest ih =>
    intro view cnt view' cnt' h
    simp only [saveLoop] at h
    by_cases hm : matchesExisting view raw = true
    · rw [if_pos hm] at h
      exact ih view cnt view' cnt' h
    · rw [if_neg hm] at h
      cases hn : raw.name with
      | none => rw [hn] at h; cases h
      | some nm =>
        rw [hn] at h
        obtain ⟨newRows, h1, h2⟩ := ih _ _ _ _ h
        exact ⟨mkNoticeRow raw nm :: newRows, by simp [h1],
          by simp only [List.length_cons]; omega⟩

theorem matchesExisting_after_insert (view : List NoticeRow) (raw : RawNotice)
    (nm : String) (h : pyTruthyStr raw.url = true) :
    matchesExisting (view ++ [mkNoticeRow raw nm]) raw = true := by
  simp [matchesExisting, h, List.any_append, mkNoticeRow]

/-- C6: a notice is inserted only when no existing row matches it by
`url` (when it carries one) or else by `name`; a matching notice is
skipped with the existing rows left untouched (first-seen wins, the
table only grows by the new rows); the returned count is the number of
newly inserted rows; and saving the same truthy-url notice twice in one
call with `clear_existing = false` inserts it once and returns 1. -/
theorem C6_dedup_first_seen_wins :
    (∀ (st : DBState) (raw : RawNotice) (rest : List RawNotice),
      matchesExisting st.current raw = true →
      save_construction_notices st (raw :: rest) false
        = save_construction_notices st rest false) ∧
    (∀ (st : DBState) (notices : List RawNotice) (view : List NoticeRow) (cnt : Nat),
      saveLoop st.current 0 notices = .ok (view, cnt) →
      ∃ newRows, view = st.current ++ newRows ∧ cnt = newRows.length ∧
        save_construction_notices st notices false = (⟨view, view⟩, .ok cnt)) ∧
    (∀ (st : DBState) (raw : RawNotice) (nm : String),
      pyTruthyStr raw.url = true → raw.name = some nm →
      matchesExisting st.current raw = false →
      save_construction_notices st [raw, raw] false
        = (⟨st.current ++ [mkNoticeRow raw nm], st.current ++ [mkNoticeRow raw nm]⟩,
            .ok 1)) := by
  refine ⟨?_, ?_, ?_⟩
  · intro st raw rest h
    simp [save_construction_notices, saveLoop, h]
  · intro st notices view cnt h
    obtain ⟨newRows, h1, h2⟩ := saveLoop_ok_structure notices st.current 0 view cnt h
    exact ⟨newRows, h1, by omega, by simp [save_construction_notices, h]⟩
  · intro st raw nm hu hn hm
    simp [save_construction_notices, saveLoop, hm, hn,
      matchesExisting_after_insert st.current raw nm hu]

theorem C6_dedup_first_seen_wins_witness :
    save_construction_notices ⟨[], []⟩
        [⟨none, none, some "n", none, none, none, some "u"⟩,
         ⟨none, none, some "n", none, none, none, some "u"⟩] false
      = (⟨[⟨none, none, "n", none, none, none, some "u"⟩],
          [⟨none, none, "n", none, none, none, some "u"⟩]⟩, .ok 1) :=
  C6_dedup_first_seen_wins.2.2 ⟨[], []⟩
    ⟨none, none, some "n", none, none, none, some "u"⟩ "n"
    (by decide) (by decide) (by decide)

/-- C1 is the spec's intent and the code violates it:
`save_construction_notices` commits the delete (line 190) before any
insert, so when an insert fails the rollback cannot restore the
deleted rows — starting from a nonempty committed table, a failing run
with `clear_existing = true` re-raises but leaves the committed table
empty instead of unchanged. -/
theorem C1_clear_commit_breaks_atomicity :
    (save_construction_notices ⟨[c1Row], [c1Row]⟩ [c1Bad] true).2
        = .error .keyError ∧
    (save_construction_notices ⟨[c1Row], [c1Row]⟩ [c1Bad] true).1.committed = [] ∧
    ([c1Row] : List NoticeRow) ≠ [] := by decide

theorem noticeStep_inv (dist : ℚ → ℚ → ℚ → ℚ → ℚ) (f : Favorite)
    (coords : List (ℚ × ℚ)) (thr : ℚ) (acc : List (Int × Int) × List Alert)
    (c : ConstructionNotice) (h : alertsKeyInv acc) :
    alertsKeyInv (noticeStep dist f coords thr acc c) := by
  obtain ⟨nf, al⟩ := acc
  obtain ⟨hnd, hsub⟩ := h
  unfold noticeStep
  cases hg : c.geometry with
  | none => exact ⟨hnd, hsub⟩
  | some g =>
    obtain ⟨gt, gcoords⟩ := g
    dsimp only
    by_cases ht : gt = "Point"
    · rw [if_pos ht]
      cases gcoords with
      | nil => exact ⟨hnd, hsub⟩
      | cons conLon rest =>
        cases rest with
        | nil => exact ⟨hnd, hsub⟩
        | cons conLat more =>
          dsimp only
          cases hp : pointsLoop dist thr conLat conLon coords with
          | none => exact ⟨hnd, hsub⟩
          | some d =>
            dsimp only
            by_cases hk : (f.id, c.id) ∈ nf
            · rw [if_pos hk]
              exact ⟨hnd, hsub⟩
            · rw [if_neg hk]
              constructor
              · simp only [List.map_append, List.map_cons, List.map_nil]
                rw [show alertKey (mkAlert f c d) = (f.id, c.id) from rfl]
                rw [List.nodup_append]
                refine ⟨hnd, List.nodup_singleton _, ?_⟩
                intro k hk1 hk2
                simp only [List.mem_singleton] at hk2
                subst hk2
                exact hk (hsub _ hk1)
              · intro k hkm
                simp only [List.map_append, List.map_cons, List.map_nil,
                  List.mem_append, List.mem_singleton] at hkm
                cases hkm with
                | inl hin => exact List.mem_cons_of_mem _ (hsub _ hin)
                | inr heq =>
                  rw [heq]
                  rw [show alertKey (mkAlert f c d) = (f.id, c.id) from rfl]
                  exact List.mem_cons_self _ _
    · rw [if_neg ht]
      exact ⟨hnd, hsub⟩

theorem favStep_inv (dist : ℚ → ℚ → ℚ → ℚ → ℚ) (cns : List ConstructionNotice)
    (acc : List (Int × Int) × List Alert) (f : Favorite) (h : alertsKeyInv acc) :
    alertsKeyInv (favStep dist cns acc f) := by
  unfold favStep
  by_cases hc : (get_favorite_coordinates f).isEmpty
  · rw [if_pos hc]
    exact h
  · rw [if_neg hc]
    exact listFoldlInv _ alertsKeyInv cns
      (fun c _ acc2 hacc => noticeStep_inv dist f _ _ acc2 c hacc) acc h

/-- C4: one matching cycle never emits two alerts for the same
`(favorite_id, construction_id)` pair — the dedup keys of the alert
list produced by `check_construction_near_favorites` are pairwise
distinct, for every favorite table (route favorites with several
in-range points included), notice table, date and distance function. -/
theorem C4_at_most_one_alert_per_pair :
    ∀ (uid : Int) (favs : List Favorite) (notices : List ConstructionNotice)
      (today : PyDate) (dist : ℚ → ℚ → ℚ → ℚ → ℚ),
      ((check_construction_near_favorites uid favs notices today dist).map
        alertKey).Nodup := by
  intro uid favs notices today dist
  unfold check_construction_near_favorites
  by_cases hf : (favs.filter (fun f => f.user_id == uid && f.notification_enabled)).isEmpty
  · simp only [hf, if_true, List.map_nil, List.nodup_nil]
  · simp only [hf, Bool.false_eq_true, if_false]
    exact (listFoldlInv _ alertsKeyInv _
      (fun f _ acc hacc => favStep_inv dist _ acc f hacc) ([], [])
      ⟨List.nodup_nil, by simp⟩).1

theorem noticeStep_prov (dist : ℚ → ℚ → ℚ → ℚ → ℚ) (f : Favorite)
    (coords : List (ℚ × ℚ)) (thr : ℚ) (A : List ConstructionNotice)
    (c : ConstructionNotice) (hc : c ∈ A) (acc : List (Int × Int) × List Alert)
    (h : alertsFromList A acc.2) :
    alertsFromList A (noticeStep dist f coords thr acc c).2 := by
  obtain ⟨nf, al⟩ := acc
  unfold noticeStep
  cases hg : c.geometry with
  | none => exact h
  | some g =>
    obtain ⟨gt, gcoords⟩ := g
    dsimp only
    by_cases ht : gt = "Point"
    · rw [if_pos ht]
      cases gcoords with
      | nil => exact h
      | cons conLon rest =>
        cases rest with
        | nil => exact h
        | cons conLat more =>
          dsimp only
          cases hp : pointsLoop dist thr conLat conLon coords with
          | none => exact h
          | some d =>
            dsimp only
            by_cases hk : (f.id, c.id) ∈ nf
            · rw [if_pos hk]
              exact h
            · rw [if_neg hk]
              intro a ha
              simp only [List.mem_append, List.mem_singleton] at ha
              cases ha with
              | inl hin => exact h a hin
              | inr heq => exact ⟨c, hc, by rw [heq]; rfl⟩
    · rw [if_neg ht]
      exact h

theorem favStep_prov (dist : ℚ → ℚ → ℚ → ℚ → ℚ)
    (A : List ConstructionNotice) (acc : List (Int × Int) × List Alert)
    (f : Favorite) (h : alertsFromList A acc.2) :
    alertsFromList A (favStep dist A acc f).2 := by
  unfold favStep
  by_cases hc : (get_favorite_coordinates f).isEmpty
  · rw [if_pos hc]
    exact h
  · rw [if_neg hc]
    exact listFoldlInv _ (fun acc2 => alertsFromList A acc2.2) A
      (fun c hcm acc2 hacc => noticeStep_prov dist f _ _ A c hcm acc2 hacc) acc h

theorem mem_activeNotices {n : ConstructionNotice} {today : PyDate}
    {notices : List ConstructionNotice} :
    n ∈ activeNotices today notices ↔
      n ∈ notices ∧ ∃ s e, n.start_date = some s ∧ n.end_date = some e ∧
        dateLe s today = true ∧ dateLe today e = true := by
  unfold activeNotices
  rw [List.mem_filter]
  constructor
  · rintro ⟨hm, hp⟩
    refine ⟨hm, ?_⟩
    cases hs : n.start_date with
    | none => rw [hs] at hp; cases hp
    | some s =>
      cases he : n.end_date with
      | none => rw [hs, he] at hp; cases hp
      | some e =>
        rw [hs, he] at hp
        rw [Bool.and_eq_true] at hp
        exact ⟨s, e, rfl, rfl, hp.1, hp.2⟩
  · rintro ⟨hm, s, e, hs, he, h1, h2⟩
    refine ⟨hm, ?_⟩
    rw [hs, he]
    dsimp only
    rw [h1, h2]
    rfl

/-- C9: a notice with a null `start_date` or null `end_date` is never
selected by the active filter and never yields an alert — every alert
produced by `check_construction_near_favorites` originates from a
notice whose two dates are non-null and bracket today. -/
theorem C9_null_dates_never_alert :
    (∀ (uid : Int) (favs : List Favorite) (notices : List ConstructionNotice)
       (today : PyDate) (dist : ℚ → ℚ → ℚ → ℚ → ℚ) (a : Alert),
      a ∈ check_construction_near_favorites uid favs notices today dist →
      ∃ n, n ∈ notices ∧ a.construction_id = n.id ∧
        ∃ s e, n.start_date = some s ∧ n.end_date = some e ∧
          dateLe s today = true ∧ dateLe today e = true) ∧
    (∀ (today : PyDate) (notices : List ConstructionNotice)
       (n : ConstructionNotice),
      n.start_date = none ∨ n.end_date = none →
      n ∉ activeNotices today notices) := by
  constructor
  · intro uid favs notices today dist a ha
    unfold check_construction_near_favorites at ha
    by_cases hf : (favs.filter (fun f => f.user_id == uid && f.notification_enabled)).isEmpty
    · rw [if_pos hf] at ha
      cases ha
    · rw [if_neg hf] at ha
      have hprov := listFoldlInv (favStep dist (activeNotices today notices))
        (fun acc2 => alertsFromList (activeNotices today notices) acc2.2)
        (favs.filter (fun f => f.user_id == uid && f.notification_enabled))
        (fun f _ acc hacc => favStep_prov dist _ acc f hacc) ([], [])
        (by intro a2 ha2; cases ha2)
      obtain ⟨n, hn, hid⟩ := hprov a ha
      obtain ⟨hm, s, e, hs, he, h1, h2⟩ := mem_activeNotices.mp hn
      exact ⟨n, hm, hid, s, e, hs, he, h1, h2⟩
  · intro today notices n hnull hmem
    obtain ⟨_, s, e, hs, he, _, _⟩ := mem_activeNotices.mp hmem
    cases hnull with
    | inl h0 => rw [h0] at hs; cases hs
    | inr h0 => rw [h0] at he; cases he

theorem C9_null_dates_never_alert_witness :
    mkAlert c9Fav c9CN 0
        ∈ check_construction_near_favorites 7 [c9Fav] [c9CN] c9Today c9Dist ∧
    ∃ n, n ∈ [c9CN] ∧ (mkAlert c9Fav c9CN 0).construction_id = n.id ∧
      ∃ s e, n.start_date = some s ∧ n.end_date = some e ∧
        dateLe s c9Today = true ∧ dateLe c9Today e = true :=
  ⟨by decide,
   C9_null_dates_never_alert.1 7 [c9Fav] [c9CN] c9Today c9Dist
     (mkAlert c9Fav c9CN 0) (by decide)⟩

theorem mem_dropWhile_of_mem {α : Type _} (p : α → Bool) :
    ∀ (l : List α) (c : α), c ∈ l → p c = false → c ∈ l.dropWhile p := by
  intro l
  induction l with
  | nil => intro c h _; cases h
  | cons x xs ih =>
    intro c hc hp
    rw [List.dropWhile_cons]
    by_cases hx : p x = true
    · rw [if_pos hx]
      cases List.mem_cons.mp hc with
      | inl heq => subst heq; rw [hp] at hx; cases hx
      | inr hm => exact ih c hm hp
    · rw [if_neg hx]
      exact hc

theorem pyStrip_ne_nil {s : PyStr} {c : Char} (hc : c ∈ s)
    (hs : pyIsSpace c = false) : pyStrip s ≠ [] := by
  intro h
  unfold pyStrip at h
  rw [List.reverse_eq_nil_iff, List.dropWhile_eq_nil_iff] at h
  have h1 : c ∈ s.dropWhile pyIsSpace := mem_dropWhile_of_mem pyIsSpace s c hc hs
  have h2 : c ∈ (s.dropWhile pyIsSpace).reverse := List.mem_reverse.mpr h1
  have h3 := h c h2
  rw [hs] at h3
  cases h3

theorem pyContains_append_self (s1 s2 : PyStr) (c : Char) :
    pyContains (s1 ++ c :: s2) c = true := by
  simp [pyContains, List.any_append]

theorem pySplitFirst_append (sep : Char) :
    ∀ (s1 s2 : PyStr), pyContains s1 sep = false →
      pySplitFirst sep (s1 ++ sep :: s2) = (s1, s2) := by
  intro s1
  induction s1 with
  | nil =>
    intro s2 _
    simp [pySplitFirst]
  | cons c cs ih =>
    intro s2 h
    simp only [pyContains, List.any_cons, Bool.or_eq_false_iff] at h
    have hc : ¬ c = sep := by
      intro he
      rw [he] at h
      simp at h
    simp only [List.cons_append, pySplitFirst, List.append_eq]
    rw [if_neg hc, ih s2 h.2]

theorem parse_body_split (s1 s2 : PyStr) (h : pyContains s1 '-' = false) :
    parse_body (s1 ++ '-' :: s2) =
      match roc_to_gregorian (pyStrip s1) with
      | .error e => .error e
      | .ok sd =>
        match roc_to_gregorian (pyStrip s2) with
        | .error e => .error e
        | .ok ed => .ok (sd, ed) := by
  unfold parse_body
  rw [if_pos (pyContains_append_self s1 s2 '-')]
  rw [pySplitFirst_append '-' s1 s2 h]

theorem parse_mid_nonblank (s1 s2 : PyStr) : pyStrip (s1 ++ '-' :: s2) ≠ [] :=
  @pyStrip_ne_nil (s1 ++ '-' :: s2) '-' (by simp) (by decide)

theorem parse_roc_split (s1 s2 : PyStr) :
    parse_roc_date_range (s1 ++ '-' :: s2) =
      match parse_body (s1 ++ '-' :: s2) with
      | .ok r => .ok r
      | .error _ => .ok (none, none) := by
  unfold parse_roc_date_range
  rw [if_neg (parse_mid_nonblank s1 s2)]

theorem parse_both_ok (s1 s2 : PyStr) (sd ed : Option PyDate)
    (h : pyContains s1 '-' = false)
    (h1 : roc_to_gregorian (pyStrip s1) = .ok sd)
    (h2 : roc_to_gregorian (pyStrip s2) = .ok ed) :
    parse_roc_date_range (s1 ++ '-' :: s2) = .ok (sd, ed) := by
  rw [parse_roc_split s1 s2, parse_body_split s1 s2 h, h1, h2]

theorem parse_left_err (s1 s2 : PyStr) (e : PyExc)
    (h : pyContains s1 '-' = false)
    (h1 : roc_to_gregorian (pyStrip s1) = .error e) :
    parse_roc_date_range (s1 ++ '-' :: s2) = .ok (none, none) := by
  rw [parse_roc_split s1 s2, parse_body_split s1 s2 h, h1]

theorem parse_right_err (s1 s2 : PyStr) (sd : Option PyDate) (e : PyExc)
    (h : pyContains s1 '-' = false)
    (h1 : roc_to_gregorian (pyStrip s1) = .ok sd)
    (h2 : roc_to_gregorian (pyStrip s2) = .error e) :
    parse_roc_date_range (s1 ++ '-' :: s2) = .ok (none, none) := by
  rw [parse_roc_split s1 s2, parse_body_split s1 s2 h, h1, h2]

theorem sideMalformed_to_none (s : PyStr) (h : sideMalformed s) :
    roc_to_gregorian s = .ok none := by
  unfold sideMalformed at h
  unfold roc_to_gregorian
  split
  next p1 p2 p3 heq =>
    rw [heq] at h
    dsimp only at h
    rcases h with h1 | h2 | h3 | ⟨y, m, d, hy, hm, hd, ho1, ho2, ho3, hv⟩
    · rw [h1]
    · rw [h2]
      cases pyInt p1 <;> rfl
    · rw [h3]
      cases pyInt p1 <;> cases pyInt p2 <;> rfl
    · rw [hy, hm, hd]
      dsimp only
      rw [ho1, ho2, ho3]
      rw [if_neg (by decide : ¬((false || false || false) = true))]
      unfold mkValidDate
      rw [if_neg (by simp [hv])]
  next heq2 =>
    rfl

theorem daysInMonth_le (y m : Int) : daysInMonth y m ≤ 31 := by
  unfold daysInMonth
  split
  · split <;> omega
  · split <;> omega

/-- C7: `parse_roc_date_range` never raises (its result is always
`.ok`): blank input yields `(None, None)`; a side that is malformed —
wrong field count, a non-numeric field, or an invalid calendar day —
yields `None` for that side; and an unexpected failure (an exception
the inner handler does not catch, such as the `OverflowError` of a
huge numeric field) yields `(None, None)`. -/
theorem C7_never_raises :
    (∀ s : PyStr, ∃ v, parse_roc_date_range s = .ok v) ∧
    (∀ s : PyStr, pyStrip s = [] → parse_roc_date_range s = .ok (none, none)) ∧
    (∀ s : PyStr, sideMalformed s → roc_to_gregorian s = .ok none) ∧
    (∀ (s1 s2 : PyStr) (v : Option PyDate × Option PyDate),
      pyContains s1 '-' = false →
      roc_to_gregorian (pyStrip s1) = .ok none →
      parse_roc_date_range (s1 ++ '-' :: s2) = .ok v → v.1 = none) ∧
    (∀ (s1 s2 : PyStr) (v : Option PyDate × Option PyDate),
      pyContains s1 '-' = false →
      roc_to_gregorian (pyStrip s2) = .ok none →
      parse_roc_date_range (s1 ++ '-' :: s2) = .ok v → v.2 = none) ∧
    (∀ (s1 s2 : PyStr),
      pyContains s1 '-' = false →
      ((∃ e, roc_to_gregorian (pyStrip s1) = .error e) ∨
        (∃ e, roc_to_gregorian (pyStrip s2) = .error e)) →
      parse_roc_date_range (s1 ++ '-' :: s2) = .ok (none, none)) := by
  refine ⟨?_, ?_, sideMalformed_to_none, ?_, ?_, ?_⟩
  · intro s
    unfold parse_roc_date_range
    by_cases hb : pyStrip s = []
    · exact ⟨(none, none), by rw [if_pos hb]⟩
    · rw [if_neg hb]
      cases hpb : parse_body s with
      | ok r => exact ⟨r, rfl⟩
      | error e => exact ⟨(none, none), rfl⟩
  · intro s hb
    unfold parse_roc_date_range
    rw [if_pos hb]
  · intro s1 s2 v h h1 hp
    cases hr : roc_to_gregorian (pyStrip s2) with
    | ok ed =>
      rw [parse_both_ok s1 s2 none ed h h1 hr] at hp
      cases hp
      rfl
    | error e =>
      rw [parse_right_err s1 s2 none e h h1 hr] at hp
      cases hp
      rfl
  · intro s1 s2 v h h2 hp
    cases hl : roc_to_gregorian (pyStrip s1) with
    | ok sd =>
      rw [parse_both_ok s1 s2 sd none h hl h2] at hp
      cases hp
      rfl
    | error e =>
      rw [parse_left_err s1 s2 e h hl] at hp
      cases hp
      rfl
  · intro s1 s2 h he
    cases he with
    | inl h1 =>
      obtain ⟨e, h1⟩ := h1
      exact parse_left_err s1 s2 e h h1
    | inr h2 =>
      obtain ⟨e, h2⟩ := h2
      cases hl : roc_to_gregorian (pyStrip s1) with
      | ok sd => exact parse_right_err s1 s2 sd e h hl h2
      | error e2 => exact parse_left_err s1 s2 e2 h hl

theorem C7_never_raises_witness :
    (parse_roc_date_range "  ".toList = .ok (none, none)) ∧
    (roc_to_gregorian "114/13/01".toList = .ok none) ∧
    ((none, some (⟨2025, 12, 1⟩ : PyDate)).1 = (none : Option PyDate)) :=
  ⟨C7_never_raises.2.1 "  ".toList (by decide),
   C7_never_raises.2.2.1 "114/13/01".toList
     (Or.inr (Or.inr (Or.inr ⟨114, 13, 1, by decide, by decide, by decide,
       by decide, by decide, by decide, by decide⟩))),
   C7_never_raises.2.2.2.1 "114/13/01".toList "114/12/01".toList
     (none, some ⟨2025, 12, 1⟩) (by decide) (by decide) (by decide)⟩

/-- C8: a well-formed side `"A/B/C"` with three numeric fields forming
a valid calendar date converts to the Gregorian date with year
`A + 1911`, month `B`, day `C`; and an input without a `'-'` separator
whose whole (stripped) text is such a side yields that date as both
start and end (a single-day range). -/
theorem C8_single_side_conversion :
    (∀ (s : PyStr) (p1 p2 p3 : PyStr) (y m d : Int),
      pySplitAll '/' s = [p1, p2, p3] →
      pyInt p1 = some y → pyInt p2 = some m → pyInt p3 = some d →
      isValidDate (y + 1911) m d = true →
      roc_to_gregorian s = .ok (some ⟨y + 1911, m, d⟩)) ∧
    (∀ (s : PyStr) (d : PyDate),
      pyContains s '-' = false →
      roc_to_gregorian (pyStrip s) = .ok (some d) →
      parse_roc_date_range s = .ok (some d, some d)) := by
  constructor
  · intro s p1 p2 p3 y m d hsp hy hm hd hv
    unfold roc_to_gregorian
    rw [hsp]
    dsimp only
    rw [hy, hm, hd]
    dsimp only
    have hb : isValidDate (y + 1911) m d = true := hv
    simp only [isValidDate, Bool.and_eq_true, decide_eq_true_eq] at hb
    have h31 : daysInMonth (y + 1911) m ≤ 31 := daysInMonth_le _ _
    have ho1 : overflowsCInt (y + 1911) = false := by
      simp only [overflowsCInt, Bool.or_eq_false_iff, decide_eq_false_iff_not]
      omega
    have ho2 : overflowsCInt m = false := by
      simp only [overflowsCInt, Bool.or_eq_false_iff, decide_eq_false_iff_not]
      omega
    have ho3 : overflowsCInt d = false := by
      simp only [overflowsCInt, Bool.or_eq_false_iff, decide_eq_false_iff_not]
      omega
    rw [ho1, ho2, ho3]
    rw [if_neg (by decide : ¬((false || false || false) = true))]
    unfold mkValidDate
    rw [if_pos hv]
  · intro s d hc hr
    unfold parse_roc_date_range
    by_cases hb : pyStrip s = []
    · rw [hb] at hr
      simp [roc_to_gregorian, pySplitAll] at hr
    · rw [if_neg hb]
      unfold parse_body
      rw [if_neg (by rw [hc]; intro hx; cases hx)]
      dsimp only
      rw [hr]

theorem C8_single_side_conversion_witness :
    roc_to_gregorian "114/12/01".toList = .ok (some ⟨2025, 12, 1⟩) ∧
    parse_roc_date_range "114/12/02".toList
      = .ok (some ⟨2025, 12, 2⟩, some ⟨2025, 12, 2⟩) :=
  ⟨C8_single_side_conversion.1 "114/12/01".toList
     "114".toList "12".toList "01".toList 114 12 1
     (by decide) (by decide) (by decide) (by decide) (by decide),
   C8_single_side_conversion.2 "114/12/02".toList ⟨2025, 12, 2⟩
     (by decide) (by decide)⟩

/-- C3 is false as stated: both sides of
`"114/12/31-114/12/01"` parse, yet the returned start is after the
returned end — the parser performs no reordering. -/
theorem C3_counterexample_start_after_end :
    parse_roc_date_range "114/12/31-114/12/01".toList
      = .ok (some ⟨2025, 12, 31⟩, some ⟨2025, 12, 1⟩) ∧
    dateLe ⟨2025, 12, 31⟩ ⟨2025, 12, 1⟩ = false := by decide

/-- C3 (amended): for every valid `"A/B/C-A/B/C"` input on which both
sides parse, the parser returns the left side's date as start and the
right side's date as end, performing no reordering — so the returned
`start ≤ end` holds exactly when the left side's date is on or before
the right side's date. -/
theorem C3_amended_sides_in_textual_order :
    ∀ (s1 s2 : PyStr) (d1 d2 : PyDate),
      pyContains s1 '-' = false →
      roc_to_gregorian (pyStrip s1) = .ok (some d1) →
      roc_to_gregorian (pyStrip s2) = .ok (some d2) →
      parse_roc_date_range (s1 ++ '-' :: s2) = .ok (some d1, some d2) ∧
        (∀ st en, parse_roc_date_range (s1 ++ '-' :: s2) = .ok (some st, some en) →
          (dateLe st en = true ↔ dateLe d1 d2 = true)) := by
  intro s1 s2 d1 d2 hc h1 h2
  have hp := parse_both_ok s1 s2 (some d1) (some d2) hc h1 h2
  refine ⟨hp, ?_⟩
  intro st en hpe
  rw [hp] at hpe
  simp only [Except.ok.injEq, Prod.mk.injEq, Option.some.injEq] at hpe
  obtain ⟨hd1, hd2⟩ := hpe
  rw [hd1, hd2]

theorem C3_amended_sides_in_textual_order_witness :
    parse_roc_date_range ("114/12/31".toList ++ '-' :: "114/12/01".toList)
      = .ok (some ⟨2025, 12, 31⟩, some ⟨2025, 12, 1⟩) :=
  (C3_amended_sides_in_textual_order "114/12/31".toList "114/12/01".toList
    ⟨2025, 12, 31⟩ ⟨2025, 12, 1⟩ (by decide) (by decide) (by decide)).1

